import Mathlib

/-!
# declPyQt5 — a shallow embedding of `src/declpyqt5.py`

This file embeds the declarative-widget layer of the repository in Lean 4:
the key variants, the widget descriptor tree, the `build` pass (content-hash
computation), the `paint` pass (instantiation of native elements), the
`AxisAlignedBox` alignment/spacer construction, the `Column`/`Row` adapters,
and the `Application` run/setState machinery.  Each definition mirrors the
Python class or method named in its doc comment.

Modelling conventions:

* Python's `hash` of a fingerprint string is a fixed deterministic function
  of that string.  The stored `_hash` is modelled by the fingerprint string
  itself: equality of fingerprints coincides with the hash equality that the
  source guarantees, and distinct fingerprints express the change the
  fingerprint is designed to detect.  Constant surrounding text of Python's
  `str`/`repr` (for example the `<class ...>` wrapper around a type name) is
  reproduced with `\x27` escapes for the quote characters.
* Callbacks are opaque: a callback value is `Option Nat` (`none` is Python's
  `None`; `some n` an arbitrary callable identified by `n`).  The source
  hashes only `type(callback)`, which distinguishes `None` from a callable
  and nothing further; `pyTypeName` reflects exactly that.
* Qt is the external collaborator.  A painted widget is a `NativeElem`
  value; `connectSlot` models `pyqtSignal.connect`, which raises `TypeError`
  when handed `None` instead of a callable.
* Keys are stored by every widget constructor but are never read by
  `build`, `paintWidget` or the repaint logic (spec §9), so the widget tree
  carries no key field; keys are modelled on their own for the key-equality
  claims.
-/

namespace DeclPyQt5

/-- `Alignment` (source lines 211–215): `none`, `start`, `center`, `end`. -/
inductive Alignment where
  | none : Alignment
  | start : Alignment
  | center : Alignment
  | «end» : Alignment
deriving DecidableEq, Repr

/-- The widget descriptor tree: one constructor per concrete `Widget`
subclass, carrying exactly the fields its `__init__` stores (after the
coercions `__init__` performs).  `Text.__init__` replaces a `None` text by
`''` (so `text` is a `String`); `DropdownList.__init__` coerces every item
with `str` (so `items` is a `List String`); `TableView` rows/columns are the
values iterated by `range(...)` in `paintWidget`.  `Expanded` stores the
validated child and flex (its checked constructor is `mkExpanded` below);
`AxisAlignedBox` stores the spacer-normalised child list its `__init__`
computes (its constructor is `mkAxisAlignedBox` below).  The `Column`/`Row`
adapters wrap an `AxisAlignedBox` at build time and are modelled as the
top-level adapter structures `ColumnW`/`RowW` below. -/
inductive Widget where
  | text (text : String) : Widget
  | labelButton (label : String) (tooltip : String) (onTap : Option Nat) : Widget
  | textField (placeholder : String) (value : String) (hidden : Bool)
      (onChanged : Option Nat) : Widget
  | expanded (child : Widget) (flex : Int) : Widget
  | axisAlignedBox (children : List Widget) (vertical : Bool) : Widget
  | tableView (rows : Nat) (cols : Nat) (headers : List String)
      (data : List (List String)) (onSelected : Option Nat) (onChanged : Option Nat) : Widget
  | dropdownList (items : List String) (index : Int) (onChanged : Option Nat) : Widget

/-- Python `str` of a `bool`: `True` / `False`. -/
def pyBoolStr (b : Bool) : String :=
  if b then "True" else "False"

/-- Python `str(type(c))` for a callback slot: `None` has type `NoneType`,
any callable bound there prints as a function type.  Only the
`None`-versus-callable distinction is observable through `type`. -/
def pyTypeName (c : Option Nat) : String :=
  match c with
  | Option.none => "<class \x27NoneType\x27>"
  | Option.some _ => "<class \x27function\x27>"

/-- Python `repr` of a string (as `str` of a list shows its elements):
the text between single quotes. -/
def pyStrRepr (s : String) : String :=
  "\x27" ++ s ++ "\x27"

/-- Python `str` of a `List[str]` row. -/
def pyRowRepr (r : List String) : String :=
  "[" ++ String.intercalate ", " (r.map pyStrRepr) ++ "]"

/-- Python `str` of the `List[List[str]]` table data. -/
def pyDataRepr (d : List (List String)) : String :=
  "[" ++ String.intercalate ", " (d.map pyRowRepr) ++ "]"

mutual

/-- The content hash each `build` override stores (source lines 121–124,
142–146, 169–174, 198–203, 245–251, 343–347, 402–406), under the
fingerprint-string model described in the header.  `Expanded.build` first
builds the child and folds the child's stored hash in; `AxisAlignedBox.build`
builds every child and joins the children's hashes with `,`.  Note which
fields each fingerprint omits: `TextField`'s `value`, `AxisAlignedBox`'s
`vertical`, `DropdownList`'s `index` and callback. -/
def hashW : Widget → String
  | Widget.text t => "Text(text=" ++ t ++ ")"
  | Widget.labelButton label tooltip onTap =>
      "LabelButton(label=" ++ label ++ ",tooltip=" ++ tooltip ++ ",onTap="
        ++ pyTypeName onTap ++ ")"
  | Widget.textField placeholder _value hidden onChanged =>
      "TextField(placeholder=" ++ placeholder ++ ",hidden=" ++ pyBoolStr hidden
        ++ ",onChanged=" ++ pyTypeName onChanged ++ ")"
  | Widget.expanded child flex =>
      "Expanded(child=" ++ hashW child ++ ",flex=" ++ toString flex ++ ")"
  | Widget.axisAlignedBox children _vertical =>
      "AxisAlignedBox(children=[" ++ String.intercalate "," (hashListW children) ++ "])"
  | Widget.tableView rows cols _headers data _onSelected _onChanged =>
      "TableView(rows=" ++ toString rows ++ ",columns=" ++ toString cols
        ++ ",data=" ++ pyDataRepr data ++ ")"
  | Widget.dropdownList items _index _onChanged =>
      "DropdownList(items=" ++ String.intercalate "," items ++ ")"

/-- The hashes of a list of children, in order (the `map` inside
`AxisAlignedBox.build`, line 249–250). -/
def hashListW : List Widget → List String
  | [] => []
  | w :: ws => hashW w :: hashListW ws

end

/-- `isinstance(child, Expanded)` (source lines 228, 265). -/
def isExpanded : Widget → Bool
  | Widget.expanded _ _ => true
  | _ => false

/-- `Expanded.__init__` (source lines 188–196): raises `ValueError` when the
child is `None`, or when the flex is not a positive integer (the source
checks `not isinstance(flex, int) or flex <= 0`; the `int` typing is carried
by the `Int` parameter, so the remaining check is `flex <= 0`).  The raised
messages are the source's. -/
def mkExpanded (child : Option Widget) (flex : Int) : Except String Widget :=
  match child with
  | Option.none => Except.error "Expanded must have a non-null child"
  | Option.some c =>
      if flex ≤ 0 then Except.error "flex must be a non-negative integer"
      else Except.ok (Widget.expanded c flex)

/-- The synthetic spacer `Expanded(child=Text(''), flex=1)` that
`AxisAlignedBox.__init__` appends to fake alignment (source lines 233, 241).
`Expanded.__init__`'s checks pass for it (`Text('')` is non-null, `1 > 0`). -/
def fakeAlignmentSpacer : Widget :=
  Widget.expanded (Widget.text "") 1

/-- The `has_expanded` scan of `AxisAlignedBox.__init__` (source lines
225–229): walk the declared children, skip `None` entries, and flip the flag
on any `Expanded` instance. -/
def hasExpandedScan (children : List (Option Widget)) : Bool :=
  children.foldl
    (fun acc child =>
      match child with
      | Option.some c => if isExpanded c then true else acc
      | Option.none => acc)
    false

/-- The child-appending loop of `AxisAlignedBox.__init__` (source lines
235–237): append every non-`None` declared child, in order, to the
accumulated list. -/
def addChildren (acc : List Widget) (children : List (Option Widget)) : List Widget :=
  children.foldl
    (fun a child =>
      match child with
      | Option.some c => a ++ [c]
      | Option.none => a)
    acc

/-- `AxisAlignedBox.__init__` (source lines 220–243): scan for an explicit
`Expanded` among the non-`None` declared children; when there is none,
prepend a spacer for `center`/`end` alignment, append the non-`None`
children, and append a spacer for `start`/`center` alignment; store the
resulting list together with the `vertical` flag. -/
def mkAxisAlignedBox (children : List (Option Widget)) (vertical : Bool)
    (alignment : Alignment) : Widget :=
  let hasExpanded := hasExpandedScan children
  let cs1 : List Widget :=
    if hasExpanded = false ∧ (alignment = Alignment.center ∨ alignment = Alignment.«end»)
    then [fakeAlignmentSpacer] else []
  let cs2 := addChildren cs1 children
  let cs3 :=
    if hasExpanded = false ∧ (alignment = Alignment.start ∨ alignment = Alignment.center)
    then cs2 ++ [fakeAlignmentSpacer] else cs2
  Widget.axisAlignedBox cs3 vertical

/-- The `_children` list an `AxisAlignedBox` stores (empty for the widgets
that store no child list). -/
def axisBoxChildren : Widget → List Widget
  | Widget.axisAlignedBox cs _ => cs
  | _ => []

/-- The per-slot stretch factor `AxisAlignedBox.paintWidget` collects
(source lines 265–268): the child's own `_flex` when the child is an
`Expanded`, else `0`. -/
def childFlex : Widget → Int
  | Widget.expanded _ flex => flex
  | _ => 0

/-- The native (Qt) element a `paintWidget` override returns, abstracted to
the configuration the source writes into it: the wrapped values, the
echo-mode flag, the connected callbacks, the box layout's ordered children
and per-slot stretch factors, the table's cell matrix and header row, and
the combo box's items and seeded index. -/
inductive NativeElem where
  | qLabel (text : String) : NativeElem
  | qPushButton (label : String) (tooltip : String) (connectedTap : Option Nat) : NativeElem
  | qLineEdit (value : String) (password : Bool) (connectedChange : Nat) : NativeElem
  | qWidgetBox (vertical : Bool) (children : List NativeElem)
      (stretches : List Int) : NativeElem
  | qTableWidget (rows : Nat) (cols : Nat) (cells : List (List String))
      (headers : List String) : NativeElem
  | qComboBox (items : List String) (index : Int) : NativeElem

/-- `pyqtSignal.connect` (external collaborator): raises `TypeError` when the
argument is `None` instead of a callable, and registers the callable
otherwise. -/
def connectSlot (c : Option Nat) : Except String Nat :=
  match c with
  | Option.none =>
      Except.error "TypeError: connect() slot argument should be a callable, not NoneType"
  | Option.some f => Except.ok f

/-- `TableView._getdataitem` (source lines 349–354): start from the empty
string, and replace it by `str(data[row][col])` only when the row and then
the column are in range of the stored data. -/
def getdataitem (data : List (List String)) (row : Nat) (col : Nat) : String :=
  if hr : row < data.length then
    let r := data.get ⟨row, hr⟩
    if hc : col < r.length then r.get ⟨col, hc⟩ else ""
  else ""

/-- The cell matrix `TableView.paintWidget` writes (source lines 361–367):
for every `row in range(rows)` and `col in range(cols)`, the item is
`_getdataitem(row, col)`. -/
def tableCells (rows : Nat) (cols : Nat) (data : List (List String)) :
    List (List String) :=
  (List.range rows).map fun row => (List.range cols).map fun col => getdataitem data row col

/-- The header row `TableView.paintWidget` writes (source lines 369–372):
`str(headers[i] if i < len(headers) else i + 1)` for every
`i in range(cols)`. -/
def tableHeaders (cols : Nat) (headers : List String) : List String :=
  (List.range cols).map fun i =>
    if h : i < headers.length then headers.get ⟨i, h⟩ else toString (i + 1)

mutual

/-- The `paintWidget` overrides (source lines 126–128, 148–153, 176–182,
205–207, 253–273, 356–386, 408–418).  `LabelButton` connects its click
callback only under an `is not None` guard; `TextField` connects its
text-change callback unconditionally, so `connectSlot` fails on a `None`
callback there; `Expanded` returns its child's painted element;
`AxisAlignedBox` paints the stored children in order and sets each slot's
stretch to the child's flex (`Expanded`) or `0`; `TableView` and
`DropdownList` connect locally-defined closures (never `None`). -/
def paintW : Widget → Except String NativeElem
  | Widget.text t => Except.ok (NativeElem.qLabel t)
  | Widget.labelButton label tooltip onTap =>
      Except.ok (NativeElem.qPushButton label tooltip onTap)
  | Widget.textField _placeholder value hidden onChanged =>
      match connectSlot onChanged with
      | Except.error e => Except.error e
      | Except.ok slot => Except.ok (NativeElem.qLineEdit value hidden slot)
  | Widget.expanded child _flex => paintW child
  | Widget.axisAlignedBox children vertical =>
      match paintListW children with
      | Except.error e => Except.error e
      | Except.ok ws =>
          Except.ok (NativeElem.qWidgetBox vertical ws (children.map childFlex))
  | Widget.tableView rows cols headers data _onSelected _onChanged =>
      Except.ok (NativeElem.qTableWidget rows cols (tableCells rows cols data)
        (tableHeaders cols headers))
  | Widget.dropdownList items index _onChanged =>
      Except.ok (NativeElem.qComboBox items index)

/-- The painting loop over a box's children (source lines 261–264): paint
each child in order, propagating the first failure. -/
def paintListW : List Widget → Except String (List NativeElem)
  | [] => Except.ok []
  | w :: ws =>
      match paintW w with
      | Except.error e => Except.error e
      | Except.ok x =>
          match paintListW ws with
          | Except.error e => Except.error e
          | Except.ok xs => Except.ok (x :: xs)

end

/-- `Column.__init__` (source lines 277–284): stores the declared children
list verbatim (possibly holding `None` entries) and the alignment. -/
structure ColumnW where
  children : List (Option Widget)
  alignment : Alignment

/-- `Column.build` constructs `self._child = AxisAlignedBox(children=...,
vertical=True, alignment=...)` and builds it (source lines 286–295). -/
def ColumnW.buildChild (c : ColumnW) : Widget :=
  mkAxisAlignedBox c.children true c.alignment

/-- The hash `Column.build` stores: `hash('Column(%d)' % self._child._hash)`
(source line 294), under the fingerprint model. -/
def ColumnW.buildHash (c : ColumnW) : String :=
  "Column(" ++ hashW c.buildChild ++ ")"

/-- `Column.paintWidget` returns `self._child.paintWidget()` (source lines
297–298). -/
def ColumnW.paintWidget (c : ColumnW) : Except String NativeElem :=
  paintW c.buildChild

/-- `Row.__init__` (source lines 302–309): as `Column`, with the underlying
box horizontal. -/
structure RowW where
  children : List (Option Widget)
  alignment : Alignment

/-- `Row.build` constructs `self._child = AxisAlignedBox(children=...,
vertical=False, alignment=...)` and builds it (source lines 311–320). -/
def RowW.buildChild (r : RowW) : Widget :=
  mkAxisAlignedBox r.children false r.alignment

/-- The hash `Row.build` stores: `hash('Row(%d)' % self._child._hash)`
(source line 319), under the fingerprint model. -/
def RowW.buildHash (r : RowW) : String :=
  "Row(" ++ hashW r.buildChild ++ ")"

/-- `Row.paintWidget` returns `self._child.paintWidget()` (source lines
322–323). -/
def RowW.paintWidget (r : RowW) : Except String NativeElem :=
  paintW r.buildChild

/-- The key variants (source lines 41–75).  `anyKey` is the basic `Key`;
`valueKey` carries its value (modelled over `Int` value equality);
`uniqueKey` carries the generated unique token (`uuid.uuid4()`, a
process-wide fresh value, so two distinct instances carry distinct
tokens and a key carries its own token). -/
inductive PyKey where
  | anyKey : PyKey
  | valueKey (value : Int) : PyKey
  | uniqueKey (token : Nat) : PyKey
deriving DecidableEq, Repr

/-- `self.__eq__(other)` for each key variant, dispatching on `self` as
Python does for `==` between these classes (each `__eq__` returns a plain
bool, never `NotImplemented`): `Key.__eq__` is constantly true (lines 47–48);
`ValueKey.__eq__` is an `isinstance` test then value equality (lines 58–61);
`UniqueKey.__eq__` is an `isinstance` test then token equality (lines
71–74). -/
def keyEq : PyKey → PyKey → Bool
  | PyKey.anyKey, _ => true
  | PyKey.valueKey v, other =>
      match other with
      | PyKey.valueKey w => v == w
      | _ => false
  | PyKey.uniqueKey t, other =>
      match other with
      | PyKey.uniqueKey u => t == u
      | _ => false

/-- `BuildContext` (source lines 29–38): holds the back-reference to the
owning `Application` (here the application's identity, `none` when unset)
and the monotonic counter. -/
structure BuildContextS where
  application : Option Nat
  counter : Nat
deriving DecidableEq, Repr

/-- The attribute names a `BuildContext` instance carries: the two fields
`__init__` assigns and the one method the class defines.  There is no
`repaint` among them. -/
def buildContextAttrs : List String :=
  ["_application", "counter", "setState"]

/-- `BuildContext.setState` (source lines 35–37): when the application
back-reference is set, call `Application.setState` on it; that is the
delegation entry point the spec describes.  The result names the
application called, `none` when the back-reference is unset. -/
def buildContextSetState (ctx : BuildContextS) : Option Nat :=
  ctx.application

/-- The runtime error a Python attribute lookup raises. -/
inductive PyAttrError where
  | onNone (attr : String) : PyAttrError
  | onBuildContext (attr : String) : PyAttrError
deriving DecidableEq, Repr

/-- `Widget.setState` (source lines 102–108), run against the widget's
stored `_context` (`none` before `build`, `some ctx` after): when the
context is `None` it prints the `'attempted setState() on an unbuilt
widget'` diagnostic, and then in either case executes
`self._context.repaint()` — an attribute lookup of `repaint` on the stored
context.  On `None` that lookup raises `AttributeError`; on a
`BuildContext` it raises `AttributeError` as well, because `repaint` is not
among `buildContextAttrs`.  The pair is (diagnostics printed, outcome). -/
def widgetSetState (context : Option BuildContextS) :
    List String × Except PyAttrError Unit :=
  let logs :=
    if context.isNone then ["attempted setState() on an unbuilt widget"] else []
  match context with
  | Option.none => (logs, Except.error (PyAttrError.onNone "repaint"))
  | Option.some _ =>
      if buildContextAttrs.contains "repaint" then (logs, Except.ok ())
      else (logs, Except.error (PyAttrError.onBuildContext "repaint"))

/-- What `Application.run` does besides mutating fields (source lines
453–470), in execution order. -/
inductive RunEffect where
  | invokeBuilder : RunEffect
  | buildTree : RunEffect
  | createQApplication : RunEffect
  | paintTree : RunEffect
  | attachAndShow : RunEffect
  | execEventLoop : RunEffect
deriving DecidableEq, Repr

/-- The `Application` fields `__init__` assigns that `run` reads or writes
(source lines 422–442): the root context, the stored state tree, the
`_running` flag, and whether the native window widget has been allocated. -/
structure ApplicationS where
  context : BuildContextS
  state : Option Widget
  running : Bool
  widgetAllocated : Bool

/-- `Application.__init__` with no explicit context (source lines 429–441):
a fresh `BuildContext(self)` (back-reference set), no state, `_running =
False`, no widget allocated. -/
def mkApplication : ApplicationS :=
  { context := { application := Option.some 0, counter := 0 }
    state := Option.none
    running := false
    widgetAllocated := false }

/-- `Application.run` (source lines 453–470): return immediately when
`self._running` is truthy; otherwise invoke the builder on the root context,
build the tree, create the QApplication, paint, attach, show, and enter the
event loop.  The source never assigns `self._running` anywhere, so the flag
is left exactly as it was.  The pair is (the application afterwards, the
effects performed). -/
def applicationRun (builder : BuildContextS → Widget) (app : ApplicationS) :
    ApplicationS × List RunEffect :=
  if app.running then (app, [])
  else
    ({ app with state := Option.some (builder app.context), widgetAllocated := true },
      [RunEffect.invokeBuilder, RunEffect.buildTree, RunEffect.createQApplication,
        RunEffect.paintTree, RunEffect.attachAndShow, RunEffect.execEventLoop])

/-- The spec's alignment policy table (§4.3), spacers before the declared
children: `none`/`start` add none, `center`/`end` add one.  Stated from the
spec's words, to be compared against what `mkAxisAlignedBox` stores. -/
def spacersBefore : Alignment → List Widget
  | Alignment.none => []
  | Alignment.start => []
  | Alignment.center => [fakeAlignmentSpacer]
  | Alignment.«end» => [fakeAlignmentSpacer]

/-- The spec's alignment policy table (§4.3), spacers after the declared
children: `start`/`center` add one, `none`/`end` add none. -/
def spacersAfter : Alignment → List Widget
  | Alignment.none => []
  | Alignment.start => [fakeAlignmentSpacer]
  | Alignment.center => [fakeAlignmentSpacer]
  | Alignment.«end» => []

/-- Plain in-range lookup into a cell matrix: `some` the stored entry when
both indices are in range, `none` otherwise.  Used to state what the painted
table shows. -/
def cellAt (m : List (List String)) (row : Nat) (col : Nat) : Option String :=
  (m.get? row).bind fun r => r.get? col

/-! ## Shared lemmas -/

/-- The appending loop of `AxisAlignedBox.__init__` keeps exactly the
non-`None` declared children, in order, after the accumulated prefix. -/
theorem addChildren_eq (children : List (Option Widget)) :
    ∀ acc : List Widget, addChildren acc children = acc ++ children.filterMap id := by
  induction children with
  | nil => intro acc; simp [addChildren]
  | cons c cs ih =>
    intro acc
    cases c with
    | none =>
        simpa [addChildren, List.foldl] using ih acc
    | some w =>
        have h := ih (acc ++ [w])
        simp [addChildren, List.foldl] at h ⊢
        simp [h]

/-- The `has_expanded` scan is true exactly when some non-`None` declared
child is an `Expanded`. -/
theorem hasExpandedScan_eq (children : List (Option Widget)) :
    hasExpandedScan children = (children.filterMap id).any isExpanded := by
  suffices h : ∀ b : Bool,
      children.foldl
        (fun acc child =>
          match child with
          | Option.some c => if isExpanded c then true else acc
          | Option.none => acc)
        b
      = (b || (children.filterMap id).any isExpanded) by
    simpa [hasExpandedScan] using h false
  induction children with
  | nil => intro b; simp
  | cons c cs ih =>
    intro b
    cases c with
    | none =>
        show List.foldl _ b cs = _
        rw [ih b]
        simp
    | some w =>
        show List.foldl _ (if isExpanded w then true else b) cs = _
        rw [ih]
        cases hw : isExpanded w <;> simp [hw]

/-- `mkAxisAlignedBox` in one equation: it stores the non-`None` declared
children surrounded by the spacers of the policy table, the spacers
suppressed when an explicit `Expanded` is present. -/
theorem mkAxisAlignedBox_eq (cs : List (Option Widget)) (v : Bool) (al : Alignment) :
    mkAxisAlignedBox cs v al =
      Widget.axisAlignedBox
        ((if hasExpandedScan cs then [] else spacersBefore al)
          ++ cs.filterMap id
          ++ (if hasExpandedScan cs then [] else spacersAfter al)) v := by
  cases h : hasExpandedScan cs <;> cases al <;>
    simp [mkAxisAlignedBox, addChildren_eq, spacersBefore, spacersAfter, h]

/-- The stored child list of `mkAxisAlignedBox`. -/
theorem mkAxisAlignedBox_children (cs : List (Option Widget)) (v : Bool) (al : Alignment) :
    axisBoxChildren (mkAxisAlignedBox cs v al) =
      (if hasExpandedScan cs then [] else spacersBefore al)
        ++ cs.filterMap id
        ++ (if hasExpandedScan cs then [] else spacersAfter al) := by
  rw [mkAxisAlignedBox_eq]
  rfl

/-- A child that is not an `Expanded` contributes stretch `0`. -/
theorem childFlex_of_not_expanded (w : Widget) (h : isExpanded w = false) :
    childFlex w = 0 := by
  cases w <;> simp [childFlex] <;> simp [isExpanded] at h

/-- Painting a list of children splits over append. -/
theorem paintListW_append (xs ys : List Widget) :
    paintListW (xs ++ ys) =
      match paintListW xs with
      | Except.error e => Except.error e
      | Except.ok a =>
          match paintListW ys with
          | Except.error e => Except.error e
          | Except.ok b => Except.ok (a ++ b) := by
  induction xs with
  | nil =>
      simp only [List.nil_append]
      cases h : paintListW ys <;> simp [paintListW, h]
  | cons x xs ih =>
      cases hx : paintW x <;> simp [paintListW, hx, ih] <;>
        cases hxs : paintListW xs <;> cases hys : paintListW ys <;> simp

/-! ## The claims -/

/-- **C10.** For every children list passed to `AxisAlignedBox` (and hence
through the `Column`/`Row` adapters), `None` entries are silently dropped
during construction: the stored child list is exactly the non-`None`
declared children in their original order plus the synthetic spacers (the
construction is total, so a `None` entry never raises), and only the
non-`None` children decide whether an explicit `Expanded` is present. -/
theorem c10_none_children_silently_dropped :
    (∀ (children : List (Option Widget)) (v : Bool) (al : Alignment),
        axisBoxChildren (mkAxisAlignedBox children v al) =
          (if hasExpandedScan children then [] else spacersBefore al)
            ++ children.filterMap id
            ++ (if hasExpandedScan children then [] else spacersAfter al))
  ∧ (∀ children : List (Option Widget),
        hasExpandedScan children = (children.filterMap id).any isExpanded)
  ∧ axisBoxChildren
        (mkAxisAlignedBox
          [Option.some (Widget.text "a"), Option.none, Option.some (Widget.text "b"),
            Option.none]
          true Alignment.none)
      = [Widget.text "a", Widget.text "b"]
  ∧ hasExpandedScan [Option.none, Option.some (Widget.text "a")] = false :=
  ⟨mkAxisAlignedBox_children, hasExpandedScan_eq, rfl, rfl⟩

/-- **C3.** The alignment policy of `AxisAlignedBox`: with no `Expanded`
among the declared children the synthetic flex-1 spacers follow the table
(`none` → none, `start` → one after, `center` → one before and one after,
`end` → one before); with an explicit `Expanded` no spacer is added for any
alignment.  When painted, each slot's stretch factor is the child's flex for
an `Expanded` child and `0` otherwise; in particular
`AxisAlignedBox([A, B], center)` with A, B not `Expanded` paints the four
slots spacer, A, B, spacer at stretches 1, 0, 0, 1, and
`AxisAlignedBox([Expanded(A, flex=2)], start)` paints exactly one slot at
stretch 2. -/
theorem c3_alignment_spacers_and_stretch :
    (∀ (children : List (Option Widget)) (v : Bool) (al : Alignment),
        hasExpandedScan children = false →
          axisBoxChildren (mkAxisAlignedBox children v al) =
            spacersBefore al ++ children.filterMap id ++ spacersAfter al)
  ∧ (∀ (children : List (Option Widget)) (v : Bool) (al : Alignment),
        hasExpandedScan children = true →
          axisBoxChildren (mkAxisAlignedBox children v al) = children.filterMap id)
  ∧ (∀ (cs : List Widget) (v : Bool) (ws : List NativeElem),
        paintListW cs = Except.ok ws →
          paintW (Widget.axisAlignedBox cs v)
            = Except.ok (NativeElem.qWidgetBox v ws (cs.map childFlex)))
  ∧ (∀ (A B : Widget) (ea eb : NativeElem),
        isExpanded A = false → isExpanded B = false →
        paintW A = Except.ok ea → paintW B = Except.ok eb →
          paintW (mkAxisAlignedBox [Option.some A, Option.some B] true Alignment.center)
            = Except.ok (NativeElem.qWidgetBox true
                [NativeElem.qLabel "", ea, eb, NativeElem.qLabel ""] [1, 0, 0, 1]))
  ∧ (∀ (A : Widget) (ea : NativeElem) (v : Bool),
        paintW A = Except.ok ea →
          paintW (mkAxisAlignedBox [Option.some (Widget.expanded A 2)] v Alignment.start)
            = Except.ok (NativeElem.qWidgetBox v [ea] [2]))
  ∧ paintW (mkAxisAlignedBox
        [Option.some (Widget.text "a"), Option.some (Widget.text "b")] true Alignment.center)
      = Except.ok (NativeElem.qWidgetBox true
          [NativeElem.qLabel "", NativeElem.qLabel "a", NativeElem.qLabel "b",
            NativeElem.qLabel ""] [1, 0, 0, 1])
  ∧ paintW (mkAxisAlignedBox
        [Option.some (Widget.expanded (Widget.text "x") 2)] true Alignment.start)
      = Except.ok (NativeElem.qWidgetBox true [NativeElem.qLabel "x"] [2]) := by
  refine ⟨?_, ?_, ?_, ?_, ?_, rfl, rfl⟩
  · intro cs v al h
    rw [mkAxisAlignedBox_children]
    simp [h]
  · intro cs v al h
    rw [mkAxisAlignedBox_children]
    simp [h]
  · intro cs v ws h
    simp [paintW, h]
  · intro A B ea eb hA hB pA pB
    have hscan : hasExpandedScan [Option.some A, Option.some B] = false := by
      rw [hasExpandedScan_eq]
      simp [hA, hB]
    rw [mkAxisAlignedBox_eq, hscan]
    have hsp : childFlex fakeAlignmentSpacer = 1 := rfl
    simp [spacersBefore, spacersAfter, paintW, paintListW, pA, pB, hsp,
      childFlex_of_not_expanded A hA, childFlex_of_not_expanded B hB]
  · intro A ea v pA
    have hscan : hasExpandedScan [Option.some (Widget.expanded A 2)] = true := by
      rw [hasExpandedScan_eq]
      simp [isExpanded]
    rw [mkAxisAlignedBox_eq, hscan]
    simp [paintW, paintListW, pA, childFlex]

/-- **C8.** `Column(children, alignment)` builds and paints exactly as
`AxisAlignedBox(children, vertical=True, alignment)` does, and
`Row(children, alignment)` exactly as the box with `vertical=False`: the
adapter's build constructs exactly that box, and the painted native element
of the adapter is the painted element of the underlying box.  The two
concrete instances show the vertical/horizontal split through to the painted
layout. -/
theorem c8_column_row_delegate :
    (∀ (children : List (Option Widget)) (al : Alignment),
        ColumnW.buildChild ⟨children, al⟩ = mkAxisAlignedBox children true al)
  ∧ (∀ (children : List (Option Widget)) (al : Alignment),
        ColumnW.paintWidget ⟨children, al⟩ = paintW (mkAxisAlignedBox children true al))
  ∧ (∀ (children : List (Option Widget)) (al : Alignment),
        RowW.buildChild ⟨children, al⟩ = mkAxisAlignedBox children false al)
  ∧ (∀ (children : List (Option Widget)) (al : Alignment),
        RowW.paintWidget ⟨children, al⟩ = paintW (mkAxisAlignedBox children false al))
  ∧ ColumnW.paintWidget
        ⟨[Option.some (Widget.text "hi"), Option.some (Widget.text "go")], Alignment.none⟩
      = Except.ok (NativeElem.qWidgetBox true
          [NativeElem.qLabel "hi", NativeElem.qLabel "go"] [0, 0])
  ∧ RowW.paintWidget
        ⟨[Option.some (Widget.text "hi"), Option.some (Widget.text "go")], Alignment.none⟩
      = Except.ok (NativeElem.qWidgetBox false
          [NativeElem.qLabel "hi", NativeElem.qLabel "go"] [0, 0]) :=
  ⟨fun _ _ => rfl, fun _ _ => rfl, fun _ _ => rfl, fun _ _ => rfl, rfl, rfl⟩

/-- **C2, counterexample.** The claim says changing any declared field
changes the stored hash, naming `TextField`'s `value`, `DropdownList`'s
`index` and `AxisAlignedBox`'s `vertical` flag.  The fingerprints omit all
three fields, so two widgets differing exactly there hash identically:
`TextField.build` hashes only placeholder, hidden and the callback's type
(source lines 171–173), `DropdownList.build` only the items (lines 404–405),
`AxisAlignedBox.build` only the children's hashes (lines 249–250). -/
theorem c2_counterexample_fields_omitted :
    hashW (Widget.textField "" "a" false Option.none)
        = hashW (Widget.textField "" "b" false Option.none)
  ∧ ("a" : String) ≠ "b"
  ∧ hashW (Widget.dropdownList ["x"] 0 Option.none)
      = hashW (Widget.dropdownList ["x"] 1 Option.none)
  ∧ (0 : Int) ≠ 1
  ∧ hashW (Widget.axisAlignedBox [Widget.text "t"] true)
      = hashW (Widget.axisAlignedBox [Widget.text "t"] false)
  ∧ true ≠ false :=
  ⟨rfl, by decide, rfl, by decide, rfl, by decide⟩

/-- **C2, as amended.** After `build`, the stored hash is a deterministic
pure function of a subset of the declared fields and (for composites) the
children's stored hashes: it is insensitive to `TextField`'s `value`,
`DropdownList`'s `index` (and callback) and `AxisAlignedBox`'s `vertical`
flag, which the fingerprints omit; it changes with the fields the
fingerprints do include (text, placeholder, hidden, callback presence,
items); and a composite's hash depends on its children only through their
hashes. -/
theorem c2_hash_determinism_and_coverage :
    (∀ (p v1 v2 : String) (hb : Bool) (c : Option Nat),
        hashW (Widget.textField p v1 hb c) = hashW (Widget.textField p v2 hb c))
  ∧ (∀ (items : List String) (i1 i2 : Int) (c1 c2 : Option Nat),
        hashW (Widget.dropdownList items i1 c1) = hashW (Widget.dropdownList items i2 c2))
  ∧ (∀ (cs : List Widget) (v1 v2 : Bool),
        hashW (Widget.axisAlignedBox cs v1) = hashW (Widget.axisAlignedBox cs v2))
  ∧ (∀ (cs1 cs2 : List Widget) (v : Bool),
        hashListW cs1 = hashListW cs2 →
          hashW (Widget.axisAlignedBox cs1 v) = hashW (Widget.axisAlignedBox cs2 v))
  ∧ (∀ (ch1 ch2 : Widget) (f : Int),
        hashW ch1 = hashW ch2 →
          hashW (Widget.expanded ch1 f) = hashW (Widget.expanded ch2 f))
  ∧ hashW (Widget.text "a") ≠ hashW (Widget.text "b")
  ∧ hashW (Widget.textField "p1" "" false Option.none)
      ≠ hashW (Widget.textField "p2" "" false Option.none)
  ∧ hashW (Widget.textField "" "" false Option.none)
      ≠ hashW (Widget.textField "" "" true Option.none)
  ∧ hashW (Widget.textField "" "" false Option.none)
      ≠ hashW (Widget.textField "" "" false (Option.some 0))
  ∧ hashW (Widget.dropdownList ["a"] 0 Option.none)
      ≠ hashW (Widget.dropdownList ["b"] 0 Option.none)
  ∧ hashW (Widget.expanded (Widget.text "") 1) ≠ hashW (Widget.expanded (Widget.text "") 2) := by
  refine ⟨fun _ _ _ _ _ => rfl, fun _ _ _ _ _ => rfl, fun _ _ _ => rfl, ?_, ?_,
    by decide, by decide, by decide, by decide, by decide, by decide⟩
  · intro cs1 cs2 v h
    simp [hashW, h]
  · intro ch1 ch2 f h
    simp [hashW, h]

/-- **C5.** `Expanded(child, flex)` fails construction exactly when the
child is absent or the flex is not a positive integer; `Expanded(child=None)`
fails, `Expanded(child=X, flex=0)` fails, and `Expanded(child=X, flex=1)`
succeeds for every widget X. -/
theorem c5_expanded_validation :
    (∀ (child : Option Widget) (flex : Int),
        (mkExpanded child flex).isOk = false ↔ (child = Option.none ∨ flex ≤ 0))
  ∧ (mkExpanded Option.none 1).isOk = false
  ∧ (∀ X : Widget, (mkExpanded (Option.some X) 0).isOk = false)
  ∧ (∀ X : Widget, mkExpanded (Option.some X) 1 = Except.ok (Widget.expanded X 1)) := by
  refine ⟨?_, rfl, ?_, ?_⟩
  · intro child flex
    cases child with
    | none => simp [mkExpanded, Except.isOk, Except.toBool]
    | some c =>
        by_cases h : flex ≤ 0 <;>
          simp [mkExpanded, Except.isOk, Except.toBool, h]
  · intro X
    simp [mkExpanded, Except.isOk, Except.toBool]
  · intro X
    simp [mkExpanded]

/-- **C7.** Key equality: the basic `Key` (AnyKey) compares equal to any
other key; `ValueKey(v)` compares equal to a key exactly when it is a
`ValueKey` of an equal value; a `UniqueKey` compares equal exactly to the
key carrying its own generated token, so every `UniqueKey` equals itself and
two distinct instances (distinct generated tokens) are never equal. -/
theorem c7_key_equality :
    (∀ k : PyKey, keyEq PyKey.anyKey k = true)
  ∧ (∀ (v : Int) (k : PyKey), keyEq (PyKey.valueKey v) k = true ↔ k = PyKey.valueKey v)
  ∧ (∀ (t : Nat) (k : PyKey), keyEq (PyKey.uniqueKey t) k = true ↔ k = PyKey.uniqueKey t)
  ∧ (∀ t : Nat, keyEq (PyKey.uniqueKey t) (PyKey.uniqueKey t) = true)
  ∧ (∀ t u : Nat, t ≠ u → keyEq (PyKey.uniqueKey t) (PyKey.uniqueKey u) = false)
  ∧ keyEq (PyKey.valueKey 1) (PyKey.valueKey 1) = true
  ∧ keyEq (PyKey.valueKey 1) (PyKey.valueKey 2) = false := by
  refine ⟨fun k => rfl, ?_, ?_, fun t => by simp [keyEq], ?_, rfl, rfl⟩
  · intro v k
    cases k with
    | anyKey => simp [keyEq]
    | valueKey w =>
        simp only [keyEq, beq_iff_eq, PyKey.valueKey.injEq]
        exact eq_comm
    | uniqueKey u => simp [keyEq]
  · intro t k
    cases k with
    | anyKey => simp [keyEq]
    | valueKey w => simp [keyEq]
    | uniqueKey u =>
        simp only [keyEq, beq_iff_eq, PyKey.uniqueKey.injEq]
        exact eq_comm
  · intro t u h
    simp [keyEq, h]

/-- **C9.** `TextField.paintWidget` wires the text-change event to the
`onChanged` callback with no `None` guard, so painting a `TextField` whose
callback is `None` (its default) fails at the connect call, while painting
one with a callable succeeds; `LabelButton.paintWidget` guards its click
connection, so painting with `onTap=None` succeeds. -/
theorem c9_textfield_connect_unguarded :
    (∀ (p v : String) (hb : Bool),
        paintW (Widget.textField p v hb Option.none)
          = Except.error
              "TypeError: connect() slot argument should be a callable, not NoneType")
  ∧ (∀ (p v : String) (hb : Bool) (f : Nat),
        paintW (Widget.textField p v hb (Option.some f))
          = Except.ok (NativeElem.qLineEdit v hb f))
  ∧ (∀ l t : String,
        paintW (Widget.labelButton l t Option.none)
          = Except.ok (NativeElem.qPushButton l t Option.none)) :=
  ⟨fun _ _ _ => rfl, fun _ _ _ _ => rfl, fun _ _ => rfl⟩

/-- **C6.** A painted `TableView` cell (row, col) shows `str(data[row][col])`
when both indices are in range of the stored data and the empty string
otherwise; the header for column i is `headers[i]` when in range of the
headers and `str(i + 1)` otherwise; no out-of-range lookup errors (painting
always succeeds).  The concrete 2×2 table with one data row shows "a", "b"
and two defaulted empty cells, under headers "1", "2". -/
theorem c6_tableview_defaults :
    (∀ (data : List (List String)) (row col : Nat),
        getdataitem data row col = (cellAt data row col).getD "")
  ∧ (∀ (rows cols : Nat) (data : List (List String)) (row col : Nat),
        row < rows → col < cols →
          cellAt (tableCells rows cols data) row col
            = Option.some (getdataitem data row col))
  ∧ (∀ (cols : Nat) (headers : List String) (i : Nat), i < cols →
        (tableHeaders cols headers).get? i
          = Option.some (if h : i < headers.length then headers.get ⟨i, h⟩
              else toString (i + 1)))
  ∧ (∀ (rows cols : Nat) (headers : List String) (data : List (List String))
        (os oc : Option Nat),
        paintW (Widget.tableView rows cols headers data os oc)
          = Except.ok (NativeElem.qTableWidget rows cols (tableCells rows cols data)
              (tableHeaders cols headers)))
  ∧ paintW (Widget.tableView 2 2 [] [["a", "b"]] Option.none Option.none)
      = Except.ok (NativeElem.qTableWidget 2 2 [["a", "b"], ["", ""]] ["1", "2"]) := by
  refine ⟨?_, ?_, ?_, fun _ _ _ _ _ _ => rfl, rfl⟩
  · intro data row col
    by_cases hr : row < data.length
    · have hrow : data[row]? = some data[row] := List.getElem?_eq_getElem hr
      by_cases hc : col < data[row].length
      · have hcol : data[row][col]? = some data[row][col] := List.getElem?_eq_getElem hc
        simp [getdataitem, cellAt, hrow, hcol, hr, hc, List.get_eq_getElem]
      · have hcol : data[row][col]? = none := List.getElem?_eq_none (Nat.le_of_not_lt hc)
        simp [getdataitem, cellAt, hrow, hcol, hr, hc, List.get_eq_getElem]
    · have hrow : data[row]? = none := List.getElem?_eq_none (Nat.le_of_not_lt hr)
      simp [getdataitem, cellAt, hrow, hr]
  · intro rows cols data row col hrow hcol
    simp [cellAt, tableCells, List.getElem?_range hrow, List.getElem?_range hcol]
  · intro cols headers i hi
    simp [tableHeaders, List.getElem?_range hi, List.get_eq_getElem]

/-- **C1.** Calling `setState()` on a widget never passed through `build`
prints the "unbuilt widget" diagnostic and then the attempted repaint fails
against the absent (`None`) context.  But calling `setState()` on a built
widget does not delegate to the Application's repaint entry point either:
the method executes `self._context.repaint()`, and `repaint` is not an
attribute of `BuildContext` (whose attributes are `_application`, `counter`
and `setState`), so the call raises `AttributeError` with no diagnostic.
The intended delegation entry point, `BuildContext.setState`, exists and
calls the owning application, but `Widget.setState` never reaches it. -/
theorem c1_setstate_attribute_error :
    widgetSetState Option.none
        = (["attempted setState() on an unbuilt widget"],
            Except.error (PyAttrError.onNone "repaint"))
  ∧ (∀ ctx : BuildContextS,
        widgetSetState (Option.some ctx)
          = ([], Except.error (PyAttrError.onBuildContext "repaint")))
  ∧ buildContextAttrs.contains "repaint" = false
  ∧ (∀ appId : Nat,
        buildContextSetState { application := Option.some appId, counter := 0 }
          = Option.some appId) :=
  ⟨rfl, fun _ => rfl, by decide, fun _ => rfl⟩

/-- **C4.** The `Idle → Running` state machine the spec describes is not
realised by the code: `Application.__init__` sets `_running = False` and
`run()` returns early when the flag is truthy, but no statement ever
assigns `_running = True`, so the flag is invariant under `run()`.  After a
first `run()` from a fresh application the flag is still `False`, and a
second `run()` call performs the whole startup pipeline again instead of
being a no-op.  (The guard itself behaves as specified on an application
whose flag is already true: it returns with no state change and no
effects.) -/
theorem c4_running_flag_never_set :
    mkApplication.running = false
  ∧ (∀ (builder : BuildContextS → Widget) (app : ApplicationS),
        app.running = true → applicationRun builder app = (app, []))
  ∧ (∀ (builder : BuildContextS → Widget) (app : ApplicationS),
        ((applicationRun builder app).1).running = app.running)
  ∧ (∀ builder : BuildContextS → Widget,
        ((applicationRun builder mkApplication).1).running = false)
  ∧ (∀ builder : BuildContextS → Widget,
        (applicationRun builder (applicationRun builder mkApplication).1).2
          = [RunEffect.invokeBuilder, RunEffect.buildTree, RunEffect.createQApplication,
              RunEffect.paintTree, RunEffect.attachAndShow, RunEffect.execEventLoop]) := by
  refine ⟨rfl, ?_, ?_, fun builder => rfl, fun builder => rfl⟩
  · intro builder app h
    simp [applicationRun, h]
  · intro builder app
    by_cases h : app.running <;> simp [applicationRun, h]

end DeclPyQt5
